import Mathlib

/-!
# xwindow: active-window title tracker

A shallow embedding of `src/xwindow.c` and the properties of its title
resolver, active-window locator and follow loop.

Conventions of the embedding

* The program sees the X server only through the replies it gets. A connection
  `xcb_connection_t` is therefore a record of reply functions, one per request
  that the program issues. Statements about replies quantify over arbitrary
  replies; statements about what a window holds use `xserver.connection`, the
  replies of a server that answers `GetProperty` as the X11 protocol says.
* `malloc` may return `NULL`; whether it does is given to `xwindow_run`.
* `size_t` is 64 bits wide: sums that feed `malloc` are reduced modulo `2 ^ 64`.
  `uint32_t` casts are reductions modulo `2 ^ 32`.
* Undefined behaviour (reading or writing outside an allocation) is an explicit
  `Fault`.
* Everything the program does that can be observed from outside is recorded, in
  order, as a list of `xwindow_call`: event-mask changes sent to the server and
  text written to standard output.
-/

namespace XWindow

/-! ## Basic types and constants -/

/-- One `char` of a C buffer, as its value `0 .. 255`. -/
abbrev Byte := Nat

/-- Window handle (`uint32_t`). -/
abbrev xcb_window_t := Nat

/-- Atom (`uint32_t`). -/
abbrev xcb_atom_t := Nat

def XCB_WINDOW_NONE : xcb_window_t := 0

def XCB_ATOM_NONE : xcb_atom_t := 0

def XCB_ATOM_WINDOW : xcb_atom_t := 33

def XCB_PROPERTY_NOTIFY : Nat := 28

def XCB_CW_EVENT_MASK : Nat := 2048

def XCB_EVENT_MASK_NO_EVENT : Nat := 0

def XCB_EVENT_MASK_PROPERTY_CHANGE : Nat := 4194304

def EXIT_SUCCESS : Nat := 0

def EXIT_FAILURE : Nat := 1

/-- Number of values of `size_t`. -/
def SIZE_MODULUS : Nat := 2 ^ 64

/-- Number of values of `uint32_t`. -/
def UINT32_MODULUS : Nat := 2 ^ 32

/-- Size in bytes of `xcb_window_t`. -/
def sizeof_xcb_window_t : Nat := 4

inductive xwindow_mode where
  | SINGLE
  | FOLLOW
  deriving DecidableEq

/-- The option record `xwindow_options_t` (xwindow.c:25-31). `suffix` is the
string `suffix` points to, without its terminator. -/
structure xwindow_options_t where
  mode : xwindow_mode
  max_title_length : Nat
  suffix : List Byte
  suffix_length : Nat
  ignore_empty_title : Bool

/-- The atom record `xwindow_xatoms_t` (xwindow.c:33-37). -/
structure xwindow_xatoms_t where
  NET_ACTIVE_WINDOW : xcb_atom_t
  NET_WM_NAME : xcb_atom_t
  UTF8_STRING : xcb_atom_t

/-- The connection, as the replies the server gives through it.

* `intern_atom name` is the reply to `xcb_intern_atom(conn, 1, strlen(name), name)`:
  `none` when `xcb_intern_atom_reply` returns `NULL`, otherwise the atom.
* `root` is `xcb_setup_roots_iterator(xcb_get_setup(conn)).data->root`.
* `get_property window property type long_offset long_length` is the reply to
  `xcb_get_property(conn, 0, window, property, type, long_offset, long_length)`:
  `none` when `xcb_get_property_reply` returns `NULL`, otherwise the value bytes
  (`xcb_get_property_value`, of length `xcb_get_property_value_length`). -/
structure xcb_connection_t where
  intern_atom : String → Option xcb_atom_t
  root : xcb_window_t
  get_property : xcb_window_t → xcb_atom_t → xcb_atom_t → Nat → Nat → Option (List Byte)

/-- Undefined behaviour reached by the program. -/
inductive Fault where
  | out_of_bounds_read
  | out_of_bounds_write
  deriving DecidableEq

/-- What the program does that is visible outside it, in the order done.

* `change_window_attributes window mask value` is the request
  `xcb_change_window_attributes(conn, window, mask, &value)` followed by a flush.
* `stdout bytes` is the text one `printf` call writes to standard output. -/
inductive xwindow_call where
  | change_window_attributes (window : xcb_window_t) (mask : Nat) (value : Nat)
  | stdout (bytes : List Byte)
  deriving DecidableEq

/-! ## C strings -/

/-- The C string stored at the start of a buffer: the bytes before the first
zero byte. -/
def c_string (buffer : List Byte) : List Byte :=
  buffer.takeWhile (fun b => b != 0)

/-- The function `strlen`. -/
def strlen (buffer : List Byte) : Nat :=
  (c_string buffer).length

/-- The bytes `memcpy(dst, src, n)` stores at `dst`: the first `n` bytes at `src`.
At each call site of the program `n` is at most the number of bytes at `src`. -/
def memcpy (src : List Byte) (n : Nat) : List Byte :=
  src.take n

/-! ## Title resolver (xwindow.c:135-169) -/

/-- The function `xwindow_get_wm_name` (xwindow.c:135-169).

The result is the content the call leaves in `wm_name`, from index `0` up to and
including the terminator it stores. All stores of the function are contiguous
from index `0`, so the length of the result is the number of bytes of `wm_name`
that must exist for the call to stay inside the buffer.

`wm_name_reply_length` is the length of the reply value; reply values are shorter
than `2 ^ 31` bytes, so the `int` returned by `xcb_get_property_value_length`
converts to `size_t` unchanged. -/
def xwindow_get_wm_name (conn : xcb_connection_t) (window : xcb_window_t)
    (xatoms : xwindow_xatoms_t) (options : xwindow_options_t) : List Byte :=
  match conn.get_property window xatoms.NET_WM_NAME xatoms.UTF8_STRING 0
      (options.max_title_length % UINT32_MODULUS) with
  | some wm_name_reply_value =>
    let wm_name_reply_length := wm_name_reply_value.length
    if wm_name_reply_length > options.max_title_length then
      memcpy wm_name_reply_value options.max_title_length
        ++ memcpy options.suffix options.suffix_length ++ [0]
    else
      memcpy wm_name_reply_value wm_name_reply_length ++ [0]
  | none => [0]

/-- The function `print_wm_name` (xwindow.c:171-175): the `printf("%s\n", wm_name)`
it performs, if any. Byte `10` is the newline. -/
def print_wm_name (wm_name : List Byte) (ignore_empty_title : Bool) : List xwindow_call :=
  if strlen wm_name > 0 ∨ ignore_empty_title = false then
    [xwindow_call.stdout (c_string wm_name ++ [10])]
  else
    []

/-- Size passed to `malloc` for the title buffer (xwindow.c:218), in `size_t`
arithmetic. -/
def wm_name_capacity (options : xwindow_options_t) : Nat :=
  (options.max_title_length + options.suffix_length + 1) % SIZE_MODULUS

/-! ## Active-window locator (xwindow.c:109-133) -/

/-- The load `*(xcb_window_t*) xcb_get_property_value(reply)`, where `value` are
the value bytes of the reply. libxcb keeps a reply in a buffer of 32 bytes
followed by the value padded to a multiple of four bytes. With at least one
value byte the four bytes loaded are inside that buffer: the value bytes, in the
byte order of the client (little endian), then padding, read as zero. With an
empty value the buffer ends where the load starts, and the load is out of
bounds. -/
def load_xcb_window_t (value : List Byte) : Except Fault xcb_window_t :=
  if value.length = 0 then
    Except.error Fault.out_of_bounds_read
  else
    Except.ok (value.getD 0 0 + 256 * value.getD 1 0 + 65536 * value.getD 2 0
      + 16777216 * value.getD 3 0)

/-- The function `xwindow_get_active_window` (xwindow.c:109-133). With a reply,
the function loads a window handle from the reply value without looking at the
length of the value. -/
def xwindow_get_active_window (conn : xcb_connection_t) (root_window : xcb_window_t)
    (xatoms : xwindow_xatoms_t) : Except Fault xcb_window_t :=
  match conn.get_property root_window xatoms.NET_ACTIVE_WINDOW XCB_ATOM_WINDOW 0
      sizeof_xcb_window_t with
  | some value => load_xcb_window_t value
  | none => Except.ok XCB_WINDOW_NONE

/-! ## Atoms and subscriptions -/

/-- The function `xwindow_get_atom` (xwindow.c:85-107): `none` when the function
calls `exit(EXIT_FAILURE)`. -/
def xwindow_get_atom (conn : xcb_connection_t) (name : String) : Option xcb_atom_t :=
  let atom :=
    match conn.intern_atom name with
    | some a => a
    | none => XCB_ATOM_NONE
  if atom = XCB_ATOM_NONE then none else some atom

/-- The function `xwindow_hook` (xwindow.c:177-183). -/
def xwindow_hook (window : xcb_window_t) : xwindow_call :=
  xwindow_call.change_window_attributes window XCB_CW_EVENT_MASK XCB_EVENT_MASK_PROPERTY_CHANGE

/-- The function `xwindow_unhook` (xwindow.c:185-191). -/
def xwindow_unhook (window : xcb_window_t) : xwindow_call :=
  xwindow_call.change_window_attributes window XCB_CW_EVENT_MASK XCB_EVENT_MASK_NO_EVENT

/-- Event mask this process has selected on `window` once the server has handled
the given calls in order: the value of the last event-mask change sent for the
window, `XCB_EVENT_MASK_NO_EVENT` when none was sent. -/
def event_mask (calls : List xwindow_call) (window : xcb_window_t) : Nat :=
  calls.foldl
    (fun current call =>
      match call with
      | xwindow_call.change_window_attributes w mask value =>
        if w = window ∧ mask = XCB_CW_EVENT_MASK then value else current
      | xwindow_call.stdout _ => current)
    XCB_EVENT_MASK_NO_EVENT

/-- Whether this process has property-change interest set on `window`. -/
def subscribed (calls : List xwindow_call) (window : xcb_window_t) : Bool :=
  event_mask calls window == XCB_EVENT_MASK_PROPERTY_CHANGE

/-! ## Tracking loop (xwindow.c:206-285) -/

/-- The fields of an event that the loop reads: `response_type` of
`xcb_generic_event_t`, and `window` and `atom` of the same bytes seen as
`xcb_property_notify_event_t`. -/
structure xcb_generic_event_t where
  response_type : Nat
  window : xcb_window_t
  atom : xcb_atom_t

/-- What one pass through `while (!stop)` observes: the value of `stop` at the
test, the replies of the server during the pass, and the result of
`xcb_poll_for_event` (`none` for `NULL`). -/
structure xwindow_tick where
  stop : Bool
  conn : xcb_connection_t
  event : Option xcb_generic_event_t

/-- The variables of `xwindow_run` that change in the loop, and the calls made so
far. -/
structure xwindow_state where
  active_window : xcb_window_t
  calls : List xwindow_call
  deriving DecidableEq

/-- How a run ends.

* `returned calls`: `xwindow_run` returned to `main`.
* `running st`: the ticks given are used up and the loop is still polling.
* `exited status calls`: `exit(status)` was called.
* `fault f`: undefined behaviour was reached. -/
inductive xwindow_outcome where
  | returned (calls : List xwindow_call)
  | running (st : xwindow_state)
  | exited (status : Nat) (calls : List xwindow_call)
  | fault (f : Fault)
  deriving DecidableEq

/-- The pair of calls `xwindow_get_wm_name(conn, window, &xatoms, wm_name, options);
print_wm_name(wm_name, options->ignore_empty_title);` (xwindow.c:231-232 and
275-276) on a buffer of `capacity` bytes: the calls made so far, extended by what
is printed. Storing more bytes than the buffer has is a fault. -/
def resolve_and_print (conn : xcb_connection_t) (window : xcb_window_t)
    (xatoms : xwindow_xatoms_t) (capacity : Nat) (options : xwindow_options_t)
    (calls : List xwindow_call) : Except Fault (List xwindow_call) :=
  let wm_name := xwindow_get_wm_name conn window xatoms options
  if wm_name.length > capacity then
    Except.error Fault.out_of_bounds_write
  else
    Except.ok (calls ++ print_wm_name wm_name options.ignore_empty_title)

/-- The expression `event->response_type & ~0x80`; `~0x80` is the `int`
`0xffffff7f`. -/
def response_type_without_sent_bit (response_type : Nat) : Nat :=
  Nat.land response_type 0xffffff7f

/-- One pass through the body of the loop (xwindow.c:245-279), entered with
`stop` clear. The inner value is `none` where the source leaves the pass with
`continue` before the title is resolved. -/
def xwindow_run_event (options : xwindow_options_t) (xatoms : xwindow_xatoms_t)
    (root_window : xcb_window_t) (capacity : Nat) (conn : xcb_connection_t)
    (event : Option xcb_generic_event_t) (st : xwindow_state) :
    Except Fault xwindow_state :=
  match event with
  | none => Except.ok st
  | some notify =>
    if response_type_without_sent_bit notify.response_type = XCB_PROPERTY_NOTIFY then
      if notify.atom ≠ xatoms.NET_ACTIVE_WINDOW ∧ notify.atom ≠ xatoms.NET_WM_NAME then
        Except.ok st
      else
        let dispatched : Except Fault (Option xwindow_state) :=
          if notify.atom = xatoms.NET_ACTIVE_WINDOW then
            let calls := st.calls ++ [xwindow_unhook st.active_window]
            match xwindow_get_active_window conn root_window xatoms with
            | Except.error f => Except.error f
            | Except.ok active_window =>
              if active_window ≠ root_window then
                Except.ok (some { active_window := active_window,
                                  calls := calls ++ [xwindow_hook active_window] })
              else
                Except.ok (some { active_window := active_window, calls := calls })
          else if notify.atom = xatoms.NET_WM_NAME then
            if notify.window ≠ st.active_window then Except.ok none
            else Except.ok (some st)
          else
            Except.ok (some st)
        match dispatched with
        | Except.error f => Except.error f
        | Except.ok none => Except.ok st
        | Except.ok (some st1) =>
          match resolve_and_print conn st1.active_window xatoms capacity options st1.calls with
          | Except.error f => Except.error f
          | Except.ok calls => Except.ok { active_window := st1.active_window, calls := calls }
    else
      Except.ok st

/-- The loop `while (!stop)` and the two calls after it (xwindow.c:244-283), over
the ticks the environment provides. -/
def xwindow_run_loop (options : xwindow_options_t) (xatoms : xwindow_xatoms_t)
    (root_window : xcb_window_t) (capacity : Nat) :
    List xwindow_tick → xwindow_state → xwindow_outcome
  | [], st => xwindow_outcome.running st
  | tick :: ticks, st =>
    if tick.stop then
      xwindow_outcome.returned
        (st.calls ++ [xwindow_unhook st.active_window, xwindow_unhook root_window])
    else
      match xwindow_run_event options xatoms root_window capacity tick.conn tick.event st with
      | Except.error f => xwindow_outcome.fault f
      | Except.ok st2 => xwindow_run_loop options xatoms root_window capacity ticks st2

/-- The function `xwindow_run` (xwindow.c:206-285). `conn` gives the replies of
the server up to the loop; each tick gives those of one pass through the loop.
`malloc size` tells whether the call `malloc(size)` at xwindow.c:218 returns a
buffer of `size` bytes or `NULL`. The result of `malloc` is not tested by the
source: with `NULL`, `wm_name` has no byte that may be stored to, which is a
buffer of capacity `0`. Text written to standard error is not recorded. -/
def xwindow_run (conn : xcb_connection_t) (malloc : Nat → Bool)
    (options : xwindow_options_t) (ticks : List xwindow_tick) : xwindow_outcome :=
  match xwindow_get_atom conn "_NET_ACTIVE_WINDOW", xwindow_get_atom conn "_NET_WM_NAME",
      xwindow_get_atom conn "UTF8_STRING" with
  | some net_active_window, some net_wm_name, some utf8_string =>
    let xatoms : xwindow_xatoms_t :=
      { NET_ACTIVE_WINDOW := net_active_window, NET_WM_NAME := net_wm_name,
        UTF8_STRING := utf8_string }
    let capacity :=
      if malloc (wm_name_capacity options) then wm_name_capacity options else 0
    let root_window := conn.root
    if root_window = XCB_WINDOW_NONE then
      xwindow_outcome.exited EXIT_FAILURE []
    else
      match xwindow_get_active_window conn root_window xatoms with
      | Except.error f => xwindow_outcome.fault f
      | Except.ok active_window =>
        match resolve_and_print conn active_window xatoms capacity options [] with
        | Except.error f => xwindow_outcome.fault f
        | Except.ok calls =>
          if options.mode = xwindow_mode.SINGLE then
            xwindow_outcome.returned calls
          else
            xwindow_run_loop options xatoms root_window capacity ticks
              { active_window := active_window,
                calls := calls ++ [xwindow_hook root_window, xwindow_hook active_window] }
  | _, _, _ => xwindow_outcome.exited EXIT_FAILURE []

/-- Exit status of the process once `xwindow_run` has ended as given
(xwindow.c:364-367): after a return, `main` disconnects and returns
`EXIT_SUCCESS`. `none` when the process has not exited. -/
def main_status : xwindow_outcome → Option Nat
  | xwindow_outcome.returned _ => some EXIT_SUCCESS
  | xwindow_outcome.running _ => none
  | xwindow_outcome.exited status _ => some status
  | xwindow_outcome.fault _ => none

/-- The end of `main` (xwindow.c:358-367), with the options parsed: the exit
status of the process. `connection` is `none` when `xcb_connect` fails. -/
def main (connection : Option xcb_connection_t) (malloc : Nat → Bool)
    (options : xwindow_options_t) (ticks : List xwindow_tick) : Option Nat :=
  match connection with
  | none => some EXIT_FAILURE
  | some conn => main_status (xwindow_run conn malloc options ticks)

/-! ## A server that follows the X11 protocol -/

/-- A property as a server stores it on a window: the atom of its type and its
bytes. -/
structure xserver_property where
  type : xcb_atom_t
  data : List Byte

/-- The state of an X server, as far as the program reads it: the atoms interned,
the root window, and for each window that exists its properties by atom
(`properties window = none` when there is no such window). -/
structure xserver where
  atoms : String → Option xcb_atom_t
  root : xcb_window_t
  properties : xcb_window_t → Option (xcb_atom_t → Option xserver_property)

/-- The value bytes of the reply to `GetProperty` with `delete = 0`, as the X11
protocol defines them. A window that does not exist gives an error, hence no
reply. A property that the window does not have, or whose type is not the type
asked for (`0` asks for any type), gives a reply with an empty value. Otherwise,
with `N` the number of bytes of the property and `I = 4 * long_offset`, an offset
beyond `N` gives an error; else the value is the `min (N - I) (4 * long_length)`
bytes of the property from index `I` on: `long_length` counts units of four
bytes. -/
def xserver.get_property (server : xserver) (window : xcb_window_t)
    (property type : xcb_atom_t) (long_offset long_length : Nat) : Option (List Byte) :=
  match server.properties window with
  | none => none
  | some properties =>
    match properties property with
    | none => some []
    | some stored =>
      if type ≠ 0 ∧ stored.type ≠ type then some []
      else if 4 * long_offset > stored.data.length then none
      else some ((stored.data.drop (4 * long_offset)).take (4 * long_length))

/-- The connection to a server that follows the protocol. -/
def xserver.connection (server : xserver) : xcb_connection_t :=
  { intern_atom := server.atoms, root := server.root,
    get_property := server.get_property }

/-! ## Connections used in the worked examples -/

/-- Atoms of the worked examples: `_NET_ACTIVE_WINDOW` is 300, `_NET_WM_NAME` is
301 and `UTF8_STRING` is 302. -/
def example_xatoms : xwindow_xatoms_t :=
  { NET_ACTIVE_WINDOW := 300, NET_WM_NAME := 301, UTF8_STRING := 302 }

/-- A server with root window `1` that knows the three atoms of `example_xatoms`.
The read of the active-window property of the root is answered with `active`, the
read of the title property of a window with `titles window`; every other read
has no reply. -/
def example_conn (active : Option (List Byte))
    (titles : xcb_window_t → Option (List Byte)) : xcb_connection_t :=
  { intern_atom := fun name =>
      if name = "_NET_ACTIVE_WINDOW" then some 300
      else if name = "_NET_WM_NAME" then some 301
      else if name = "UTF8_STRING" then some 302
      else none
    root := 1
    get_property := fun window property _ _ _ =>
      if property = 300 then (if window = 1 then active else none)
      else if property = 301 then titles window
      else none }

/-- The default options of `main` (xwindow.c:289-295) with the given mode, limit
and flag. `DEFAULT_SUFFIX` (xwindow.c:17) is the seven bytes
`c3 a2 e2 82 ac c2 a6` of the source file and `DEFAULT_SUFFIX_LENGTH` is 3. -/
def example_options (mode : xwindow_mode) (max_title_length : Nat)
    (ignore_empty_title : Bool) : xwindow_options_t :=
  { mode := mode, max_title_length := max_title_length,
    suffix := [195, 162, 226, 130, 172, 194, 166],
    suffix_length := 3, ignore_empty_title := ignore_empty_title }

/-- A heap on which every call of `malloc` returns a buffer. -/
def malloc_succeeds : Nat → Bool :=
  fun _ => true

/-- A heap on which `malloc` returns a buffer for sizes up to `limit` and `NULL`
above. -/
def malloc_up_to (limit : Nat) : Nat → Bool :=
  fun size => decide (size ≤ limit)

/-- Options with the given limit and the suffix `...` of three bytes. -/
def dots_options (max_title_length : Nat) : xwindow_options_t :=
  { mode := xwindow_mode.SINGLE, max_title_length := max_title_length,
    suffix := [46, 46, 46], suffix_length := 3, ignore_empty_title := false }

/-- A server that follows the protocol, with the atoms of `example_xatoms`, the
root window `1` without properties, and one more window, `7`, whose only property
is the title `title`, of type `UTF8_STRING`. -/
def example_server (title : List Byte) : xserver :=
  { atoms := fun name =>
      if name = "_NET_ACTIVE_WINDOW" then some 300
      else if name = "_NET_WM_NAME" then some 301
      else if name = "UTF8_STRING" then some 302
      else none
    root := 1
    properties := fun window =>
      if window = 1 then some (fun _ => none)
      else if window = 7 then
        some (fun property =>
          if property = 301 then some { type := 302, data := title } else none)
      else none }

/-! ## Shared lemmas -/

theorem c_string_append_zero (bytes : List Byte) (h : ∀ b ∈ bytes, b ≠ 0) :
    c_string (bytes ++ [0]) = bytes := by
  induction bytes with
  | nil => simp [c_string]
  | cons b rest ih =>
    have hb : b ≠ 0 := h b (List.mem_cons_self b rest)
    have hrest : ∀ x ∈ rest, x ≠ 0 := fun x hx => h x (List.mem_cons_of_mem b hx)
    have ih2 := ih hrest
    have hne : (b != 0) = true := by simpa using hb
    simp only [c_string] at ih2 ⊢
    simp only [List.cons_append, List.takeWhile_cons, hne, if_true, ih2]

/-- The bytes `xwindow_get_wm_name` stores, terminator included, number at most
`max_title_length + suffix_length + 1`, as natural numbers. -/
theorem xwindow_get_wm_name_length_le (conn : xcb_connection_t) (window : xcb_window_t)
    (xatoms : xwindow_xatoms_t) (options : xwindow_options_t) :
    (xwindow_get_wm_name conn window xatoms options).length
      ≤ options.max_title_length + options.suffix_length + 1 := by
  unfold xwindow_get_wm_name
  cases conn.get_property window xatoms.NET_WM_NAME xatoms.UTF8_STRING 0
      (options.max_title_length % UINT32_MODULUS) with
  | none => simp
  | some value =>
    by_cases hlen : value.length > options.max_title_length
    · simp only [hlen, if_true, memcpy, List.length_append, List.length_take,
        List.length_singleton]
      have h1 : min options.max_title_length value.length ≤ options.max_title_length :=
        Nat.min_le_left _ _
      have h2 : min options.suffix_length options.suffix.length ≤ options.suffix_length :=
        Nat.min_le_left _ _
      omega
    · simp only [hlen, if_false, memcpy, List.length_append, List.length_take,
        List.length_singleton]
      have h1 : min value.length value.length ≤ value.length := Nat.min_le_left _ _
      omega

/-- When `max_title_length + suffix_length + 1` does not wrap around in `size_t`,
every resolved title fits the buffer that `xwindow_run` allocates, so resolving
and printing never faults. -/
theorem resolve_and_print_fits (conn : xcb_connection_t) (window : xcb_window_t)
    (xatoms : xwindow_xatoms_t) (options : xwindow_options_t) (calls : List xwindow_call)
    (hfit : options.max_title_length + options.suffix_length + 1 < SIZE_MODULUS) :
    resolve_and_print conn window xatoms (wm_name_capacity options) options calls
      = Except.ok (calls ++ print_wm_name (xwindow_get_wm_name conn window xatoms options)
          options.ignore_empty_title) := by
  have hlen := xwindow_get_wm_name_length_le conn window xatoms options
  have hcap : wm_name_capacity options
      = options.max_title_length + options.suffix_length + 1 := by
    unfold wm_name_capacity
    exact Nat.mod_eq_of_lt hfit
  unfold resolve_and_print
  simp only [hcap]
  rw [if_neg (by omega)]

/-- What `print_wm_name` writes, spelled out: one line holding the string and a
newline, or nothing when the string is empty and `ignore_empty_title` is set. -/
theorem print_wm_name_eq (wm_name : List Byte) (ignore_empty_title : Bool) :
    print_wm_name wm_name ignore_empty_title
      = if c_string wm_name = [] ∧ ignore_empty_title = true then []
        else [xwindow_call.stdout (c_string wm_name ++ [10])] := by
  unfold print_wm_name strlen
  cases hc : c_string wm_name with
  | nil => cases ignore_empty_title <;> simp
  | cons b rest => simp

/-! ## Title resolver -/

/-- For a reply of more than `max_title_length` bytes the buffer receives the
first `max_title_length` bytes of the reply, the suffix and the terminator. -/
theorem xwindow_get_wm_name_long_reply (conn : xcb_connection_t) (window : xcb_window_t)
    (xatoms : xwindow_xatoms_t) (options : xwindow_options_t) (reply : List Byte)
    (hsuffix : options.suffix_length = options.suffix.length)
    (hreply : conn.get_property window xatoms.NET_WM_NAME xatoms.UTF8_STRING 0
      (options.max_title_length % UINT32_MODULUS) = some reply)
    (hlong : reply.length > options.max_title_length) :
    xwindow_get_wm_name conn window xatoms options
      = reply.take options.max_title_length ++ options.suffix ++ [0] := by
  unfold xwindow_get_wm_name
  rw [hreply]
  simp only [hlong, if_true, memcpy, hsuffix, List.take_length]

/-- For a reply of at most `max_title_length` bytes the buffer receives the reply
and the terminator. -/
theorem xwindow_get_wm_name_short_reply (conn : xcb_connection_t) (window : xcb_window_t)
    (xatoms : xwindow_xatoms_t) (options : xwindow_options_t) (reply : List Byte)
    (hreply : conn.get_property window xatoms.NET_WM_NAME xatoms.UTF8_STRING 0
      (options.max_title_length % UINT32_MODULUS) = some reply)
    (hshort : reply.length ≤ options.max_title_length) :
    xwindow_get_wm_name conn window xatoms options = reply ++ [0] := by
  unfold xwindow_get_wm_name
  rw [hreply]
  simp only [Nat.not_lt.mpr hshort, if_false, memcpy, List.take_length, gt_iff_lt]

/-- What a server that follows the protocol replies to the title read of
`xwindow_get_wm_name`, for a window whose title property holds `title`: the first
`4 * (max_title_length mod 2 ^ 32)` bytes of the title. -/
theorem xserver_title_reply (server : xserver) (window : xcb_window_t)
    (xatoms : xwindow_xatoms_t) (options : xwindow_options_t)
    (properties : xcb_atom_t → Option xserver_property) (title : List Byte)
    (hwindow : server.properties window = some properties)
    (htitle : properties xatoms.NET_WM_NAME
      = some { type := xatoms.UTF8_STRING, data := title }) :
    server.connection.get_property window xatoms.NET_WM_NAME xatoms.UTF8_STRING 0
        (options.max_title_length % UINT32_MODULUS)
      = some (title.take (4 * (options.max_title_length % UINT32_MODULUS))) := by
  simp [xserver.connection, xserver.get_property, hwindow, htitle]

/-- When `max_title_length` is below `2 ^ 32`, a title of at most
`max_title_length` bytes on a server that follows the protocol is left in the
buffer as it is, followed by the terminator. -/
theorem xwindow_get_wm_name_short_property (server : xserver) (window : xcb_window_t)
    (xatoms : xwindow_xatoms_t) (options : xwindow_options_t)
    (properties : xcb_atom_t → Option xserver_property) (title : List Byte)
    (hwindow : server.properties window = some properties)
    (htitle : properties xatoms.NET_WM_NAME
      = some { type := xatoms.UTF8_STRING, data := title })
    (hmax : options.max_title_length < UINT32_MODULUS)
    (hshort : title.length ≤ options.max_title_length) :
    xwindow_get_wm_name server.connection window xatoms options = title ++ [0] := by
  have hreply := xserver_title_reply server window xatoms options properties title
    hwindow htitle
  have hmod : options.max_title_length % UINT32_MODULUS = options.max_title_length :=
    Nat.mod_eq_of_lt hmax
  have hwhole : title.take (4 * (options.max_title_length % UINT32_MODULUS)) = title := by
    rw [hmod]
    exact List.take_of_length_le (by omega)
  rw [hwhole] at hreply
  exact xwindow_get_wm_name_short_reply server.connection window xatoms options title
    hreply hshort

/-- C1 as stated fails, in two ways. With `max_title_length = 0` and the suffix
`...`, the title read asks for zero units, the reply for the window titled
`HelloWorld` is empty, and the buffer receives the empty string instead of the
suffix. With `max_title_length = 5` and a title of ten bytes whose second byte is
zero, the buffer receives five title bytes and the suffix, but the string in it
is the one byte before the zero byte, not a string of length `5 + 3`. -/
theorem xwindow_get_wm_name_truncates_counterexample :
    xwindow_get_wm_name
        (example_server [72, 101, 108, 108, 111, 87, 111, 114, 108, 100]).connection
        7 example_xatoms (dots_options 0) = [0]
      ∧ xwindow_get_wm_name
          (example_server [72, 0, 108, 108, 111, 87, 111, 114, 108, 100]).connection
          7 example_xatoms (dots_options 5) = [72, 0, 108, 108, 111, 46, 46, 46, 0]
      ∧ c_string (xwindow_get_wm_name
          (example_server [72, 0, 108, 108, 111, 87, 111, 114, 108, 100]).connection
          7 example_xatoms (dots_options 5)) = [72]
      ∧ strlen (xwindow_get_wm_name
          (example_server [72, 0, 108, 108, 111, 87, 111, 114, 108, 100]).connection
          7 example_xatoms (dots_options 5)) = 1 := by
  refine ⟨by decide, by decide, by decide, by decide⟩

/-- C1, amended. For every configuration with `0 < max_title_length < 2 ^ 32` whose
`suffix_length` is the byte length of the suffix, and every window of a server
that follows the protocol whose title property holds `L` bytes with
`L > max_title_length`, `xwindow_get_wm_name` leaves in the buffer the first
`max_title_length` bytes of the title, then the suffix, then the terminator,
which therefore sits at index `max_title_length + suffix_length`. When none of
the bytes kept is zero, the string in the buffer is exactly those bytes and its
length is `max_title_length + suffix_length`. -/
theorem xwindow_get_wm_name_truncates (server : xserver) (window : xcb_window_t)
    (xatoms : xwindow_xatoms_t) (options : xwindow_options_t)
    (properties : xcb_atom_t → Option xserver_property) (title : List Byte)
    (hsuffix : options.suffix_length = options.suffix.length)
    (hwindow : server.properties window = some properties)
    (htitle : properties xatoms.NET_WM_NAME
      = some { type := xatoms.UTF8_STRING, data := title })
    (hpos : 0 < options.max_title_length)
    (hmax : options.max_title_length < UINT32_MODULUS)
    (hlong : title.length > options.max_title_length) :
    xwindow_get_wm_name server.connection window xatoms options
        = title.take options.max_title_length ++ options.suffix ++ [0]
      ∧ (xwindow_get_wm_name server.connection window xatoms options).length
        = options.max_title_length + options.suffix_length + 1
      ∧ ((∀ b ∈ title.take options.max_title_length ++ options.suffix, b ≠ 0) →
          c_string (xwindow_get_wm_name server.connection window xatoms options)
              = title.take options.max_title_length ++ options.suffix
            ∧ strlen (xwindow_get_wm_name server.connection window xatoms options)
              = options.max_title_length + options.suffix_length) := by
  have hreply := xserver_title_reply server window xatoms options properties title
    hwindow htitle
  have hmod : options.max_title_length % UINT32_MODULUS = options.max_title_length :=
    Nat.mod_eq_of_lt hmax
  rw [hmod] at hreply
  have hreply_long : (title.take (4 * options.max_title_length)).length
      > options.max_title_length := by
    rw [List.length_take]
    exact lt_min (by omega) hlong
  have hbuf : xwindow_get_wm_name server.connection window xatoms options
      = title.take options.max_title_length ++ options.suffix ++ [0] := by
    have h := xwindow_get_wm_name_long_reply server.connection window xatoms options
      (title.take (4 * options.max_title_length)) hsuffix (by rw [hmod]; exact hreply)
      hreply_long
    rw [h, List.take_take]
    have hmin : min options.max_title_length (4 * options.max_title_length)
        = options.max_title_length := Nat.min_eq_left (by omega)
    rw [hmin]
  have htake : (title.take options.max_title_length).length = options.max_title_length := by
    rw [List.length_take]
    exact Nat.min_eq_left (Nat.le_of_lt hlong)
  refine ⟨hbuf, ?_, ?_⟩
  · rw [hbuf, List.length_append, List.length_append, htake, hsuffix]
    rfl
  · intro hnonzero
    have hc := c_string_append_zero _ hnonzero
    refine ⟨by rw [hbuf]; exact hc, ?_⟩
    unfold strlen
    rw [hbuf, hc, List.length_append, htake, hsuffix]

/-- C1, worked example of the specification: with `max_title_length = 5` and the
suffix `...`, the window titled `HelloWorld` is resolved to `Hello...`, a string
of length 8. -/
theorem xwindow_get_wm_name_truncates_witness :
    c_string (xwindow_get_wm_name
        (example_server [72, 101, 108, 108, 111, 87, 111, 114, 108, 100]).connection
        7 example_xatoms (dots_options 5))
      = [72, 101, 108, 108, 111, 46, 46, 46]
    ∧ strlen (xwindow_get_wm_name
        (example_server [72, 101, 108, 108, 111, 87, 111, 114, 108, 100]).connection
        7 example_xatoms (dots_options 5))
      = 5 + 3 :=
  (xwindow_get_wm_name_truncates
    (example_server [72, 101, 108, 108, 111, 87, 111, 114, 108, 100])
    7 example_xatoms (dots_options 5)
    (fun property =>
      if property = 301 then
        some { type := 302, data := [72, 101, 108, 108, 111, 87, 111, 114, 108, 100] }
      else none)
    [72, 101, 108, 108, 111, 87, 111, 114, 108, 100]
    (by decide) (by rfl) (by rfl) (by decide) (by decide) (by decide)).2.2 (by decide)

/-- C2 at a failing input. With `max_title_length = 2 ^ 32`, as `-l 4294967296`
sets it, the cast to `uint32_t` makes the title read ask for zero units: for the
window titled `Hello`, of 5 bytes, the reply is empty and the buffer receives the
empty string instead of the five bytes. With `max_title_length = 2 ^ 32 + 1` the
read asks for one unit and the buffer receives `Hell`. -/
theorem xwindow_get_wm_name_cast_cuts_title :
    xwindow_get_wm_name (example_server [72, 101, 108, 108, 111]).connection
        7 example_xatoms (example_options xwindow_mode.SINGLE 4294967296 false) = [0]
      ∧ xwindow_get_wm_name (example_server [72, 101, 108, 108, 111]).connection
          7 example_xatoms (example_options xwindow_mode.SINGLE 4294967297 false)
        = [72, 101, 108, 108, 0] := by
  refine ⟨by decide, by decide⟩

theorem event_mask_append_change (calls : List xwindow_call) (w window value : Nat) :
    event_mask (calls ++ [xwindow_call.change_window_attributes w XCB_CW_EVENT_MASK value])
        window
      = if w = window then value else event_mask calls window := by
  unfold event_mask
  rw [List.foldl_append]
  simp

theorem event_mask_append_stdout (calls : List xwindow_call) (bytes : List Byte)
    (window : Nat) :
    event_mask (calls ++ [xwindow_call.stdout bytes]) window = event_mask calls window := by
  unfold event_mask
  rw [List.foldl_append]
  simp

theorem event_mask_append_print (calls : List xwindow_call) (wm_name : List Byte)
    (ignore_empty_title : Bool) (window : Nat) :
    event_mask (calls ++ print_wm_name wm_name ignore_empty_title) window
      = event_mask calls window := by
  unfold print_wm_name
  split
  · exact event_mask_append_stdout calls _ window
  · simp

theorem resolve_and_print_ok (conn : xcb_connection_t) (window : xcb_window_t)
    (xatoms : xwindow_xatoms_t) (capacity : Nat) (options : xwindow_options_t)
    (calls result : List xwindow_call)
    (h : resolve_and_print conn window xatoms capacity options calls = Except.ok result) :
    result = calls ++ print_wm_name (xwindow_get_wm_name conn window xatoms options)
      options.ignore_empty_title := by
  unfold resolve_and_print at h
  simp only at h
  split at h
  · cases h
  · injection h with h
    exact h.symm

/-- The subscription invariant is kept by every pass of the loop that starts with
a tracked active window other than the root: if exactly the root and the tracked
active window are subscribed before the pass, the same holds after it. -/
theorem xwindow_run_event_keeps_subscriptions (options : xwindow_options_t)
    (xatoms : xwindow_xatoms_t) (root_window : xcb_window_t) (capacity : Nat)
    (conn : xcb_connection_t) (event : Option xcb_generic_event_t)
    (st st2 : xwindow_state)
    (hinv : ∀ w, subscribed st.calls w = true ↔ (w = root_window ∨ w = st.active_window))
    (hnotroot : st.active_window ≠ root_window)
    (hstep : xwindow_run_event options xatoms root_window capacity conn event st
      = Except.ok st2) :
    ∀ w, subscribed st2.calls w = true ↔ (w = root_window ∨ w = st2.active_window) := by
  have hkeep : ∀ (s : xwindow_state) (calls : List xwindow_call),
      (∀ w, subscribed s.calls w = true ↔ (w = root_window ∨ w = s.active_window)) →
      resolve_and_print conn s.active_window xatoms capacity options s.calls
        = Except.ok calls →
      ∀ w, subscribed calls w = true ↔ (w = root_window ∨ w = s.active_window) := by
    intro s calls hs hres w
    rw [resolve_and_print_ok _ _ _ _ _ _ _ hres]
    unfold subscribed
    rw [event_mask_append_print]
    exact hs w
  unfold xwindow_run_event at hstep
  cases event with
  | none =>
    injection hstep with hstep
    rw [← hstep]
    exact hinv
  | some notify =>
    simp only at hstep
    split at hstep
    · split at hstep
      · injection hstep with hstep
        rw [← hstep]
        exact hinv
      · by_cases hatom : notify.atom = xatoms.NET_ACTIVE_WINDOW
        · simp only [hatom, if_true] at hstep
          cases hactive : xwindow_get_active_window conn root_window xatoms with
          | error f => simp [hactive] at hstep
          | ok B =>
            have hmask : ∀ w, subscribed
                (if B ≠ root_window then
                  st.calls ++ [xwindow_unhook st.active_window] ++ [xwindow_hook B]
                 else st.calls ++ [xwindow_unhook st.active_window]) w = true
                ↔ (w = root_window ∨ w = B) := by
              intro w
              have hw := hinv w
              unfold subscribed at hw ⊢
              by_cases hB : B = root_window
              · simp only [hB, ne_eq, not_true_eq_false, if_false]
                unfold xwindow_unhook
                rw [event_mask_append_change]
                by_cases hwa : st.active_window = w
                · have hwr : w ≠ root_window := fun h => hnotroot (hwa.trans h)
                  simp [hwa, hwr, XCB_EVENT_MASK_NO_EVENT, XCB_EVENT_MASK_PROPERTY_CHANGE]
                · have hwa2 : w ≠ st.active_window := fun h => hwa h.symm
                  simp only [hwa, if_false, hw, hwa2, or_false, or_self]
              · simp only [ne_eq, hB, not_false_eq_true, if_true]
                unfold xwindow_hook xwindow_unhook
                rw [event_mask_append_change, event_mask_append_change]
                by_cases hwB : B = w
                · simp [hwB, XCB_EVENT_MASK_PROPERTY_CHANGE]
                · have hwB2 : w ≠ B := fun h => hwB h.symm
                  by_cases hwa : st.active_window = w
                  · have hwr : w ≠ root_window := fun h => hnotroot (hwa.trans h)
                    simp [hwB, hwB2, hwa, hwr, XCB_EVENT_MASK_NO_EVENT,
                      XCB_EVENT_MASK_PROPERTY_CHANGE]
                  · have hwa2 : w ≠ st.active_window := fun h => hwa h.symm
                    simp only [hwB, if_false, hwa, hw, hwa2, or_false, hwB2]
            by_cases hB : B = root_window
            · simp only [hactive, hB, ne_eq, not_true_eq_false, if_false] at hstep
              cases hres : resolve_and_print conn root_window xatoms capacity options
                  (st.calls ++ [xwindow_unhook st.active_window]) with
              | error f => simp [hres] at hstep
              | ok calls =>
                simp only [hres] at hstep
                injection hstep with hstep
                rw [← hstep]
                have h2 := hkeep
                  { active_window := root_window,
                    calls := st.calls ++ [xwindow_unhook st.active_window] } calls
                  (by simpa [hB] using hmask) hres
                simpa using h2
            · simp only [hactive, ne_eq, hB, not_false_eq_true, if_true] at hstep
              cases hres : resolve_and_print conn B xatoms capacity options
                  (st.calls ++ [xwindow_unhook st.active_window] ++ [xwindow_hook B]) with
              | error f =>
                rw [hres] at hstep
                cases hstep
              | ok calls =>
                rw [hres] at hstep
                injection hstep with hstep
                rw [← hstep]
                have h2 := hkeep
                  { active_window := B,
                    calls := st.calls ++ [xwindow_unhook st.active_window]
                      ++ [xwindow_hook B] }
                  calls
                  (by simpa [hB] using hmask) hres
                simpa using h2
        · simp only [hatom, if_false] at hstep
          have htail : ∀ st1 : xwindow_state, st1 = st →
              (match resolve_and_print conn st1.active_window xatoms capacity options
                  st1.calls with
                | Except.error f => Except.error f
                | Except.ok calls =>
                  Except.ok { active_window := st1.active_window, calls := calls })
                = Except.ok st2 →
              ∀ w, subscribed st2.calls w = true
                ↔ (w = root_window ∨ w = st2.active_window) := by
            intro st1 hst1 hres
            subst hst1
            cases hr : resolve_and_print conn st1.active_window xatoms capacity options
                st1.calls with
            | error f => simp [hr] at hres
            | ok calls =>
              simp only [hr] at hres
              injection hres with hres
              rw [← hres]
              exact hkeep st1 calls hinv hr
          by_cases hname : notify.atom = xatoms.NET_WM_NAME
          · by_cases hwin : notify.window = st.active_window
            · simp only [hname, if_true, hwin, ne_eq, not_true_eq_false, if_false] at hstep
              exact htail st rfl hstep
            · simp only [hname, if_true, ne_eq, hwin, not_false_eq_true] at hstep
              injection hstep with hstep
              rw [← hstep]
              exact hinv
          · simp only [hname, if_false] at hstep
            exact htail st rfl hstep
    · injection hstep with hstep
      rw [← hstep]
      exact hinv

/-- C9. In follow mode, from every loop state, a property-change event whose atom
is the title atom (an atom other than the active-window atom) and whose window is
not the tracked active window leaves the state as it is: nothing is printed and
no request is sent. -/
theorem xwindow_run_event_stale_title (options : xwindow_options_t)
    (xatoms : xwindow_xatoms_t) (root_window : xcb_window_t) (capacity : Nat)
    (conn : xcb_connection_t) (notify : xcb_generic_event_t) (st : xwindow_state)
    (hnotify : response_type_without_sent_bit notify.response_type = XCB_PROPERTY_NOTIFY)
    (hatom : notify.atom = xatoms.NET_WM_NAME)
    (hdistinct : xatoms.NET_WM_NAME ≠ xatoms.NET_ACTIVE_WINDOW)
    (hwindow : notify.window ≠ st.active_window) :
    xwindow_run_event options xatoms root_window capacity conn (some notify) st
      = Except.ok st := by
  unfold xwindow_run_event
  simp [hnotify, hatom, hdistinct, hwindow]

/-- C9, worked example: the tracked window is 3 and a title notification for
window 2 arrives; the state, with the one line printed before, is unchanged. -/
theorem xwindow_run_event_stale_title_witness :
    xwindow_run_event (example_options xwindow_mode.FOLLOW 60 false) example_xatoms 1 64
        (example_conn (some [3, 0, 0, 0]) (fun _ => some [72, 105]))
        (some { response_type := 28, window := 2, atom := 301 })
        { active_window := 3, calls := [xwindow_call.stdout [72, 105, 10]] }
      = Except.ok { active_window := 3, calls := [xwindow_call.stdout [72, 105, 10]] } :=
  xwindow_run_event_stale_title (example_options xwindow_mode.FOLLOW 60 false)
    example_xatoms 1 64 (example_conn (some [3, 0, 0, 0]) (fun _ => some [72, 105]))
    { response_type := 28, window := 2, atom := 301 }
    { active_window := 3, calls := [xwindow_call.stdout [72, 105, 10]] }
    (by decide) (by rfl) (by decide) (by decide)

/-- C10. In follow mode, from every loop state, when `stop` is seen set at the top
of a pass, the loop handles no further event whatever is pending, prints nothing
more, and sends exactly two more requests: the unsubscription of the tracked
active window and then that of the root window. After them neither window is
subscribed, `xwindow_run` returns, and the process exits with `EXIT_SUCCESS`. -/
theorem xwindow_run_loop_stop (options : xwindow_options_t) (xatoms : xwindow_xatoms_t)
    (root_window : xcb_window_t) (capacity : Nat) (tick : xwindow_tick)
    (ticks : List xwindow_tick) (st : xwindow_state) (hstop : tick.stop = true) :
    xwindow_run_loop options xatoms root_window capacity (tick :: ticks) st
        = xwindow_outcome.returned
            (st.calls ++ [xwindow_unhook st.active_window, xwindow_unhook root_window])
      ∧ subscribed
          (st.calls ++ [xwindow_unhook st.active_window, xwindow_unhook root_window])
          st.active_window = false
      ∧ subscribed
          (st.calls ++ [xwindow_unhook st.active_window, xwindow_unhook root_window])
          root_window = false
      ∧ main_status (xwindow_run_loop options xatoms root_window capacity (tick :: ticks) st)
        = some EXIT_SUCCESS := by
  have hrun : xwindow_run_loop options xatoms root_window capacity (tick :: ticks) st
      = xwindow_outcome.returned
          (st.calls ++ [xwindow_unhook st.active_window, xwindow_unhook root_window]) := by
    simp [xwindow_run_loop, hstop]
  have hsplit : st.calls ++ [xwindow_unhook st.active_window, xwindow_unhook root_window]
      = (st.calls ++ [xwindow_unhook st.active_window]) ++ [xwindow_unhook root_window] := by
    simp
  refine ⟨hrun, ?_, ?_, ?_⟩
  · rw [hsplit]
    unfold subscribed xwindow_unhook
    rw [event_mask_append_change, event_mask_append_change]
    by_cases h : root_window = st.active_window <;>
      simp [h, XCB_EVENT_MASK_NO_EVENT, XCB_EVENT_MASK_PROPERTY_CHANGE]
  · rw [hsplit]
    unfold subscribed xwindow_unhook
    rw [event_mask_append_change]
    simp [XCB_EVENT_MASK_NO_EVENT, XCB_EVENT_MASK_PROPERTY_CHANGE]
  · rw [hrun]
    rfl

/-- C10, worked example: root 1 and window 3 are subscribed, a title event for
window 3 is pending, and `stop` is set: the event is not handled, both windows
are unsubscribed and the exit status is `EXIT_SUCCESS`; so it is for the whole
program when `stop` is already set at the first test of the loop. -/
theorem xwindow_run_loop_stop_witness :
    xwindow_run_loop (example_options xwindow_mode.FOLLOW 60 false) example_xatoms 1 64
        [{ stop := true, conn := example_conn (some [3, 0, 0, 0]) (fun _ => some [72, 105]),
           event := some { response_type := 28, window := 3, atom := 301 } }]
        { active_window := 3, calls := [xwindow_hook 1, xwindow_hook 3] }
      = xwindow_outcome.returned
          [xwindow_hook 1, xwindow_hook 3, xwindow_unhook 3, xwindow_unhook 1]
    ∧ main_status (xwindow_run_loop (example_options xwindow_mode.FOLLOW 60 false)
        example_xatoms 1 64
        [{ stop := true, conn := example_conn (some [3, 0, 0, 0]) (fun _ => some [72, 105]),
           event := some { response_type := 28, window := 3, atom := 301 } }]
        { active_window := 3, calls := [xwindow_hook 1, xwindow_hook 3] })
      = some EXIT_SUCCESS
    ∧ main (some (example_conn (some [3, 0, 0, 0]) (fun _ => some [72, 105])))
        malloc_succeeds (example_options xwindow_mode.FOLLOW 60 false)
        [{ stop := true, conn := example_conn (some [3, 0, 0, 0]) (fun _ => some [72, 105]),
           event := some { response_type := 28, window := 3, atom := 301 } }]
      = some EXIT_SUCCESS :=
  ⟨(xwindow_run_loop_stop (example_options xwindow_mode.FOLLOW 60 false) example_xatoms 1 64
      { stop := true, conn := example_conn (some [3, 0, 0, 0]) (fun _ => some [72, 105]),
        event := some { response_type := 28, window := 3, atom := 301 } } []
      { active_window := 3, calls := [xwindow_hook 1, xwindow_hook 3] } (by rfl)).1,
   (xwindow_run_loop_stop (example_options xwindow_mode.FOLLOW 60 false) example_xatoms 1 64
      { stop := true, conn := example_conn (some [3, 0, 0, 0]) (fun _ => some [72, 105]),
        event := some { response_type := 28, window := 3, atom := 301 } } []
      { active_window := 3, calls := [xwindow_hook 1, xwindow_hook 3] } (by rfl)).2.2.2,
   by decide⟩

/-- C3 as stated fails. Root is window 1, the tracked active window is 2, and an
active-window event arrives while the property of the root names the root itself;
the root has no title and `ignore_empty_title` is set. The step unsubscribes
window 2 and tracks window 1, but sends no subscription for window 1 and prints
no line. -/
theorem xwindow_run_event_active_window_counterexample :
    xwindow_run_event (example_options xwindow_mode.FOLLOW 60 true) example_xatoms 1
        (wm_name_capacity (example_options xwindow_mode.FOLLOW 60 true))
        (example_conn (some [1, 0, 0, 0]) (fun _ => none))
        (some { response_type := 28, window := 1, atom := 300 })
        { active_window := 2, calls := [xwindow_hook 1, xwindow_hook 2] }
      = Except.ok { active_window := 1,
                    calls := [xwindow_hook 1, xwindow_hook 2, xwindow_unhook 2] } := by
  rfl

/-- C3, amended. In follow mode, from every loop state with tracked active window
`A`, when a property-change event for the active-window atom arrives and the
active window is re-resolved to `B`, and `max_title_length + suffix_length + 1`
does not wrap around, the step sends the unsubscription of `A`, then the
subscription of `B` unless `B` is the root window, tracks `B`, and then prints
the resolved title of `B` as exactly one line, unless that title is empty and
`ignore_empty_title` is set, in which case it prints nothing. -/
theorem xwindow_run_event_active_window (options : xwindow_options_t)
    (xatoms : xwindow_xatoms_t) (root_window : xcb_window_t) (conn : xcb_connection_t)
    (notify : xcb_generic_event_t) (st : xwindow_state) (B : xcb_window_t)
    (hnotify : response_type_without_sent_bit notify.response_type = XCB_PROPERTY_NOTIFY)
    (hatom : notify.atom = xatoms.NET_ACTIVE_WINDOW)
    (hactive : xwindow_get_active_window conn root_window xatoms = Except.ok B)
    (hfit : options.max_title_length + options.suffix_length + 1 < SIZE_MODULUS) :
    xwindow_run_event options xatoms root_window (wm_name_capacity options) conn
        (some notify) st
      = Except.ok
          { active_window := B,
            calls := st.calls ++ [xwindow_unhook st.active_window]
              ++ (if B = root_window then [] else [xwindow_hook B])
              ++ (if c_string (xwindow_get_wm_name conn B xatoms options) = []
                    ∧ options.ignore_empty_title = true then []
                  else [xwindow_call.stdout
                    (c_string (xwindow_get_wm_name conn B xatoms options) ++ [10])]) } := by
  unfold xwindow_run_event
  by_cases hroot : B = root_window
  · simp [hnotify, hatom, hactive, hroot, resolve_and_print_fits _ _ _ _ _ hfit,
      print_wm_name_eq]
  · simp [hnotify, hatom, hactive, hroot, resolve_and_print_fits _ _ _ _ _ hfit,
      print_wm_name_eq]

/-- C3, worked example: root 1, tracked window 2, the active window becomes 3 with
title `Hi`: window 2 is unsubscribed, window 3 subscribed and `Hi` printed. -/
theorem xwindow_run_event_active_window_witness :
    xwindow_run_event (example_options xwindow_mode.FOLLOW 60 false) example_xatoms 1
        (wm_name_capacity (example_options xwindow_mode.FOLLOW 60 false))
        (example_conn (some [3, 0, 0, 0]) (fun _ => some [72, 105]))
        (some { response_type := 28, window := 1, atom := 300 })
        { active_window := 2, calls := [xwindow_hook 1, xwindow_hook 2] }
      = Except.ok
          { active_window := 3,
            calls := [xwindow_hook 1, xwindow_hook 2, xwindow_unhook 2, xwindow_hook 3,
              xwindow_call.stdout [72, 105, 10]] } :=
  xwindow_run_event_active_window (example_options xwindow_mode.FOLLOW 60 false)
    example_xatoms 1 (example_conn (some [3, 0, 0, 0]) (fun _ => some [72, 105]))
    { response_type := 28, window := 1, atom := 300 }
    { active_window := 2, calls := [xwindow_hook 1, xwindow_hook 2] } 3
    (by decide) (by rfl) (by rfl) (by decide)

/-- When `malloc` returns `NULL`, which the source does not test, the first title
resolution stores through `NULL`: with `max_title_length = 10 ^ 15` on a heap that
serves at most `2 ^ 40` bytes, the run faults before anything is printed. -/
theorem xwindow_run_null_buffer :
    xwindow_run (example_conn (some [3, 0, 0, 0]) (fun _ => some [72, 105]))
        (malloc_up_to 1099511627776)
        (example_options xwindow_mode.SINGLE 1000000000000000 false) []
      = xwindow_outcome.fault Fault.out_of_bounds_write := by
  decide

/-- C6 as stated fails. In single mode with `ignore_empty_title` set, on a server
whose active window is none (so that the resolved title is empty) and with the
title buffer allocated, `xwindow_run` returns having printed no line at all. -/
theorem xwindow_run_single_counterexample :
    xwindow_run (example_conn (some [0, 0, 0, 0]) (fun _ => none)) malloc_succeeds
        (example_options xwindow_mode.SINGLE 60 true) []
      = xwindow_outcome.returned [] := by
  rfl

/-- C6, amended. In single mode, on every server on which start-up succeeds (the
three atoms are interned, the root window is not none, the active window is
resolved to some `active`) and for every configuration whose
`max_title_length + suffix_length + 1` does not wrap around and for which the
allocation of the title buffer succeeds, `xwindow_run` returns, whatever events
are pending, having made no call but the printing of the resolved title of the
active window as exactly one line, and not even that when the title is empty and
`ignore_empty_title` is set. No subscription is ever sent. -/
theorem xwindow_run_single (conn : xcb_connection_t) (malloc : Nat → Bool)
    (options : xwindow_options_t) (ticks : List xwindow_tick)
    (net_active_window net_wm_name utf8_string : xcb_atom_t) (active : xcb_window_t)
    (hmode : options.mode = xwindow_mode.SINGLE)
    (hmalloc : malloc (wm_name_capacity options) = true)
    (hatom1 : xwindow_get_atom conn "_NET_ACTIVE_WINDOW" = some net_active_window)
    (hatom2 : xwindow_get_atom conn "_NET_WM_NAME" = some net_wm_name)
    (hatom3 : xwindow_get_atom conn "UTF8_STRING" = some utf8_string)
    (hroot : conn.root ≠ XCB_WINDOW_NONE)
    (hactive : xwindow_get_active_window conn conn.root
      { NET_ACTIVE_WINDOW := net_active_window, NET_WM_NAME := net_wm_name,
        UTF8_STRING := utf8_string } = Except.ok active)
    (hfit : options.max_title_length + options.suffix_length + 1 < SIZE_MODULUS) :
    xwindow_run conn malloc options ticks
        = xwindow_outcome.returned
            (if c_string (xwindow_get_wm_name conn active
                  { NET_ACTIVE_WINDOW := net_active_window, NET_WM_NAME := net_wm_name,
                    UTF8_STRING := utf8_string } options) = []
                ∧ options.ignore_empty_title = true then []
             else [xwindow_call.stdout
               (c_string (xwindow_get_wm_name conn active
                  { NET_ACTIVE_WINDOW := net_active_window, NET_WM_NAME := net_wm_name,
                    UTF8_STRING := utf8_string } options) ++ [10])])
      ∧ ∀ calls, xwindow_run conn malloc options ticks = xwindow_outcome.returned calls →
          ∀ window, xwindow_hook window ∉ calls := by
  have hrun : xwindow_run conn malloc options ticks
      = xwindow_outcome.returned
          (if c_string (xwindow_get_wm_name conn active
                { NET_ACTIVE_WINDOW := net_active_window, NET_WM_NAME := net_wm_name,
                  UTF8_STRING := utf8_string } options) = []
              ∧ options.ignore_empty_title = true then []
           else [xwindow_call.stdout
             (c_string (xwindow_get_wm_name conn active
                { NET_ACTIVE_WINDOW := net_active_window, NET_WM_NAME := net_wm_name,
                  UTF8_STRING := utf8_string } options) ++ [10])]) := by
    unfold xwindow_run
    simp [hatom1, hatom2, hatom3, hroot, hactive, hmode, hmalloc,
      resolve_and_print_fits _ _ _ _ _ hfit, print_wm_name_eq]
  refine ⟨hrun, ?_⟩
  intro calls hcalls window hmem
  rw [hrun] at hcalls
  injection hcalls with hcalls
  rw [← hcalls] at hmem
  split at hmem
  · simp at hmem
  · simp [xwindow_hook] at hmem

/-- C6, worked example: in single mode the title `Hi` of the active window 3 is
printed as one line although an active-window event is pending. -/
theorem xwindow_run_single_witness :
    xwindow_run (example_conn (some [3, 0, 0, 0]) (fun _ => some [72, 105]))
        malloc_succeeds (example_options xwindow_mode.SINGLE 60 false)
        [{ stop := false, conn := example_conn (some [2, 0, 0, 0]) (fun _ => some [72, 105]),
           event := some { response_type := 28, window := 1, atom := 300 } }]
      = xwindow_outcome.returned [xwindow_call.stdout [72, 105, 10]] :=
  (xwindow_run_single (example_conn (some [3, 0, 0, 0]) (fun _ => some [72, 105]))
    malloc_succeeds (example_options xwindow_mode.SINGLE 60 false)
    [{ stop := false, conn := example_conn (some [2, 0, 0, 0]) (fun _ => some [72, 105]),
       event := some { response_type := 28, window := 1, atom := 300 } }]
    300 301 302 3 (by rfl) (by rfl) (by rfl) (by rfl) (by rfl) (by decide) (by rfl)
    (by decide)).1

/-! ## Behaviour at the inputs where the program departs from its specification -/

/-- C4 at a failing input. Follow mode, root window 1, first active window 2, the
title buffer allocated. A
first active-window event arrives when the property of the root names the root
itself, a second one when it names window 3. After the second event the tracked
active window is 3 and is subscribed, but the root window is not: handling the
second event unsubscribed the tracked window, which was the root. -/
theorem xwindow_run_root_unsubscribed :
    ∃ st : xwindow_state,
      xwindow_run (example_conn (some [2, 0, 0, 0]) (fun _ => some [72, 105]))
          malloc_succeeds (example_options xwindow_mode.FOLLOW 60 false)
          [{ stop := false,
             conn := example_conn (some [1, 0, 0, 0]) (fun _ => some [72, 105]),
             event := some { response_type := 28, window := 1, atom := 300 } },
           { stop := false,
             conn := example_conn (some [3, 0, 0, 0]) (fun _ => some [72, 105]),
             event := some { response_type := 28, window := 1, atom := 300 } }]
        = xwindow_outcome.running st
      ∧ st.active_window = 3
      ∧ st.calls = [xwindow_call.stdout [72, 105, 10], xwindow_hook 1, xwindow_hook 2,
          xwindow_unhook 2, xwindow_call.stdout [72, 105, 10],
          xwindow_unhook 1, xwindow_hook 3, xwindow_call.stdout [72, 105, 10]]
      ∧ subscribed st.calls 3 = true
      ∧ subscribed st.calls 1 = false :=
  ⟨_, rfl, rfl, rfl, by decide, by decide⟩

/-- C5 at a failing input. When the read of the active-window property of the
root gives a reply of zero bytes, `xwindow_get_active_window` loads four bytes
from the empty value, which is a read outside the reply, instead of returning
`XCB_WINDOW_NONE`. When the reply carries the two bytes `05 00`, fewer than a
window handle, it returns the handle 5 read from them and the padding, again
not `XCB_WINDOW_NONE`. Only without a reply does it return `XCB_WINDOW_NONE`. -/
theorem xwindow_get_active_window_empty_reply :
    xwindow_get_active_window (example_conn (some []) (fun _ => none)) 1 example_xatoms
        = Except.error Fault.out_of_bounds_read
      ∧ xwindow_get_active_window (example_conn (some [5, 0]) (fun _ => none)) 1
          example_xatoms
        = Except.ok 5
      ∧ xwindow_get_active_window (example_conn none (fun _ => none)) 1 example_xatoms
        = Except.ok XCB_WINDOW_NONE :=
  ⟨rfl, rfl, rfl⟩

/-- C8 at a failing input. With `max_title_length = 2 ^ 64 - 2` and the default
suffix length of 3, the size given to `malloc` wraps around to 2, while for the
five-byte title `Hello` the resolver stores 6 bytes, at indices 0 to 5: with the
buffer of 2 bytes allocated, the run writes outside it. -/
theorem xwindow_run_buffer_overflow :
    wm_name_capacity (example_options xwindow_mode.SINGLE 18446744073709551614 false) = 2
      ∧ xwindow_get_wm_name
          (example_conn (some [2, 0, 0, 0]) (fun _ => some [72, 101, 108, 108, 111]))
          2 example_xatoms (example_options xwindow_mode.SINGLE 18446744073709551614 false)
        = [72, 101, 108, 108, 111, 0]
      ∧ xwindow_run
          (example_conn (some [2, 0, 0, 0]) (fun _ => some [72, 101, 108, 108, 111]))
          malloc_succeeds
          (example_options xwindow_mode.SINGLE 18446744073709551614 false) []
        = xwindow_outcome.fault Fault.out_of_bounds_write :=
  ⟨by decide, by decide, by decide⟩

end XWindow
